import Mathlib

/-!
Shallow embedding of the TempoMate timing core (a two-player game-clock engine)
and proofs about it.

The embedding follows the JavaScript sources:
* `src/js/utils/constants.js` — enums (`GameStatus`, `Player`, `TimingMethodType`, `FlagState`);
* `src/js/state/PlayerState.js` — per-player clock state;
* `src/js/state/GameState.js` — match state machine;
* `src/js/engine/methods/*.js` — the seven timing methods;
* `src/js/engine/MoveCounter.js` — move counters and the `PeriodManager`;
* `src/js/engine/TimerEngine.js` — the drift-correcting scheduler;
* the `App` tick / correction callbacks in the application shell.

Times are JavaScript numbers used as millisecond integers; they are modelled
as `Int` (they go negative transiently inside tick computations before
clamping).  Moment counts are modelled as `Nat`.  Mutation of `this` is
modelled by explicit state passing; a JavaScript `throw` is modelled by a
`Bool` success flag paired with the state as mutated up to the throw point
(JavaScript exceptions do not roll back mutations already made).
-/

namespace TempoMate

/-- Timing method identifiers (`TimingMethodType` in constants.js). -/
inductive TimingMethodType
  | TIME
  | FISCHER
  | US_DELAY
  | DELAY
  | BYO_YOMI
  | CANADIAN_BYO
  | UPCOUNT
  | END
  deriving DecidableEq

/-- Flag states (`FlagState` in constants.js). -/
inductive FlagState
  | NONE
  | BLINKING
  | NON_BLINKING
  deriving DecidableEq

/-- Game status (`GameStatus` in constants.js). -/
inductive GameStatus
  | IDLE
  | RUNNING
  | PAUSED
  | FROZEN
  | CORRECTING
  deriving DecidableEq

/-- Player identifiers (`Player` in constants.js). -/
inductive Side
  | left
  | right
  deriving DecidableEq

/-- The other side (`side === 'left' ? 'right' : 'left'`). -/
def Side.opponent : Side → Side
  | .left => .right
  | .right => .left

/-- One period specification of a match configuration.  Absent JavaScript
fields read through `|| 0` / `?? 0` are modelled as the value `0`. -/
structure PeriodConfig where
  method : TimingMethodType
  timeMs : Int := 0
  delayMs : Int := 0
  movesRequired : Int := 0
  byoTimeMs : Int := 0
  byoMoments : Nat := 0
  deriving DecidableEq

/-- Per-player clock state (`PlayerState`).  The cosmetic fields `color`,
`flagSetTime` (a `Date.now()` wall-clock stamp) and `hasStarted` are not
modelled; no operation under study reads them. -/
structure PlayerState where
  timeMs : Int := 0
  currentPeriod : Int := 0
  moves : Int := 0
  flagState : FlagState := .NONE
  delayRemainingMs : Int := 0
  inDelay : Bool := false
  turnStartTimeMs : Int := 0
  byoMomentsRemaining : Nat := 0
  byoMomentTimeMs : Int := 0
  deriving DecidableEq

/-- `PlayerState.setFlag` (the `flagSetTime` wall-clock stamp is not modelled). -/
def PlayerState.setFlag (p : PlayerState) (f : FlagState) : PlayerState :=
  { p with flagState := f }

/-- Result record returned by each timing method's `onTick`.  JavaScript
results that omit `momentExpired` are modelled with the default `false`
(reading an absent property yields a falsy value). -/
structure TickResult where
  expired : Bool
  remainingMs : Int
  momentExpired : Bool := false
  deriving DecidableEq

/-- The shared countdown `onTick` body of `TimeMethod`, `FischerMethod`,
`BronsteinDelayMethod` and `CanadianByoYomiMethod`: subtract the delta and
clamp at zero, reporting expiry at the clamp. -/
def countdownTick (deltaMs : Int) (p : PlayerState) : PlayerState × TickResult :=
  let t := p.timeMs - deltaMs
  if t ≤ 0 then ({ p with timeMs := 0 }, { expired := true, remainingMs := 0 })
  else ({ p with timeMs := t }, { expired := false, remainingMs := t })

/-- `BronsteinDelayMethod.onTurnStart`: snapshot the remaining time. -/
def bronsteinOnTurnStart (p : PlayerState) : PlayerState :=
  { p with turnStartTimeMs := p.timeMs }

/-- `BronsteinDelayMethod.onTurnEnd` with the method's `delayMs`:
skip when expired or the snapshot is not positive, otherwise add back
`min(delayMs, max(0, timeUsed))` and cap at the turn-start snapshot. -/
def bronsteinOnTurnEnd (delayMs : Int) (p : PlayerState) : PlayerState :=
  if p.timeMs ≤ 0 then p
  else if p.turnStartTimeMs ≤ 0 then p
  else
    let timeUsed := p.turnStartTimeMs - p.timeMs
    let compensation := min delayMs (max 0 timeUsed)
    let t := p.timeMs + compensation
    if p.turnStartTimeMs < t then { p with timeMs := p.turnStartTimeMs }
    else { p with timeMs := t }

/-- Folding `BronsteinDelayMethod.onTick` over a list of tick deltas. -/
def bronsteinTicks (ds : List Int) (p : PlayerState) : PlayerState :=
  ds.foldl (fun q d => (countdownTick d q).1) p

/-- `UsDelayMethod.onTurnStart` with the method's `delayMs`: repopulate the
delay countdown. -/
def usDelayOnTurnStart (delayMs : Int) (p : PlayerState) : PlayerState :=
  { p with delayRemainingMs := delayMs, inDelay := true }

/-- `UsDelayMethod.onTick`: while in the delay phase subtract from
`delayRemainingMs`; on crossing zero the negative overflow is applied to the
main time and `inDelay` flips false; otherwise subtract from the main time.
Then clamp the main time at zero, reporting expiry at the clamp. -/
def usDelayOnTick (deltaMs : Int) (p : PlayerState) : PlayerState × TickResult :=
  let p1 :=
    if p.inDelay then
      let d := p.delayRemainingMs - deltaMs
      if d ≤ 0 then
        let overflow := -d
        let p2 := { p with delayRemainingMs := 0, inDelay := false }
        if 0 < overflow then { p2 with timeMs := p2.timeMs - overflow } else p2
      else { p with delayRemainingMs := d }
    else { p with timeMs := p.timeMs - deltaMs }
  if p1.timeMs ≤ 0 then ({ p1 with timeMs := 0 }, { expired := true, remainingMs := 0 })
  else (p1, { expired := false, remainingMs := p1.timeMs })

/-- `UsDelayMethod.onTurnEnd`: clear the delay sub-state. -/
def usDelayOnTurnEnd (p : PlayerState) : PlayerState :=
  { p with inDelay := false, delayRemainingMs := 0 }

/-- The moment-consumption `while` loop inside `ByoYomiMethod.onTick`,
entered with the post-subtraction time and the player's remaining moments.
Returns the final time, the remaining moments, the `momentExpired` flag and
whether the loop returned early with an expiry (all moments exhausted). -/
def byoLoop (byoTimeMs : Int) (timeMs : Int) (moments : Nat) (momentExpired : Bool) :
    Int × Nat × Bool × Bool :=
  match moments with
  | 0 => (timeMs, 0, momentExpired, false)
  | m + 1 =>
    if timeMs ≤ 0 then
      if m = 0 then (0, 0, true, true)
      else byoLoop byoTimeMs (timeMs + byoTimeMs) m true
    else (timeMs, m + 1, momentExpired, false)

/-- `ByoYomiMethod.onTick` with the method's `byoTimeMs` and `byoMoments`
(configured moment count; `0` means infinite repeating reload).  Subtract the
delta; on reaching ≤ 0 either reload forever (infinite mode, floored at 1 ms)
or consume moments in a loop carrying the negative overflow, expiring with
remaining 0 when the moments are exhausted. -/
def byoOnTick (byoTimeMs : Int) (byoMoments : Nat) (deltaMs : Int) (p : PlayerState) :
    PlayerState × TickResult :=
  let t := p.timeMs - deltaMs
  if t ≤ 0 then
    if byoMoments = 0 then
      let overflow := -t
      let t1 := byoTimeMs - overflow
      let t2 := if t1 ≤ 0 then 1 else t1
      ({ p with timeMs := t2 }, { expired := false, remainingMs := t2, momentExpired := true })
    else
      let r := byoLoop byoTimeMs t p.byoMomentsRemaining false
      let p1 := { p with timeMs := r.1, byoMomentsRemaining := r.2.1 }
      if r.2.2.2 then (p1, { expired := true, remainingMs := 0 })
      else if r.1 ≤ 0 then ({ p1 with timeMs := 0 }, { expired := true, remainingMs := 0 })
      else if r.2.2.1 then (p1, { expired := false, remainingMs := r.1, momentExpired := true })
      else (p1, { expired := false, remainingMs := r.1 })
  else ({ p with timeMs := t }, { expired := false, remainingMs := t })

/-- `ByoYomiMethod.isExpired`: infinite mode never expires; otherwise expired
when the time is ≤ 0 and no moments remain. -/
def byoIsExpired (byoMoments : Nat) (p : PlayerState) : Bool :=
  if byoMoments = 0 then false
  else decide (p.timeMs ≤ 0) && decide (p.byoMomentsRemaining ≤ 0)

/-- `UpcountMethod.onTick`: count up, never expire. -/
def upcountOnTick (deltaMs : Int) (p : PlayerState) : PlayerState × TickResult :=
  ({ p with timeMs := p.timeMs + deltaMs },
   { expired := false, remainingMs := p.timeMs + deltaMs })

/-- `FischerMethod.isPeriodCompleteByMoves` with the method's `movesRequired`. -/
def fischerIsPeriodCompleteByMoves (movesRequired : Int) (p : PlayerState)
    (periodStartMoves : Int) : Bool :=
  if movesRequired ≤ 0 then false
  else decide (movesRequired ≤ p.moves - periodStartMoves)

/-- The four method types whose period transition adds the new period's main
time to the player's remaining time (the `else` branch of
`_transitionPlayerToPeriod`): the plain countdown families. -/
def isMainTimeMethod : TimingMethodType → Bool
  | .TIME => true
  | .FISCHER => true
  | .DELAY => true
  | .US_DELAY => true
  | _ => false

/-- A constructed timing-method instance: the class tag together with the
fields its constructor extracts from the period configuration.  The
`ByoYomiMethod`/`CanadianByoYomiMethod` private turn bookkeeping fields
(`_momentsAtTurnStart`, `_movesInPeriod`) are not modelled; no operation
under study reads them. -/
inductive Method
  | timeM
  | fischerM (bonusMs : Int) (movesRequired : Int)
  | bronsteinM (delayMs : Int)
  | usDelayM (delayMs : Int)
  | byoYomiM (byoTimeMs : Int) (byoMoments : Nat)
  | canadianM (byoTimeMs : Int) (movesRequired : Int)
  | upcountM
  deriving DecidableEq

/-- `PeriodManager.createMethod`: map a period configuration to a method
instance.  The `switch` default (which also catches the `END` sentinel)
constructs a `TimeMethod`; `CanadianByoYomiMethod` caps its time at 599000 ms. -/
def createMethod (pc : PeriodConfig) : Method :=
  match pc.method with
  | .TIME => .timeM
  | .FISCHER => .fischerM pc.delayMs pc.movesRequired
  | .DELAY => .bronsteinM pc.delayMs
  | .US_DELAY => .usDelayM pc.delayMs
  | .BYO_YOMI => .byoYomiM pc.byoTimeMs pc.byoMoments
  | .CANADIAN_BYO => .canadianM (min pc.byoTimeMs 599000) pc.movesRequired
  | .UPCOUNT => .upcountM
  | .END => .timeM

/-- Dispatch of `onTick` over the method family. -/
def methodOnTick (m : Method) (deltaMs : Int) (p : PlayerState) : PlayerState × TickResult :=
  match m with
  | .timeM => countdownTick deltaMs p
  | .fischerM _ _ => countdownTick deltaMs p
  | .bronsteinM _ => countdownTick deltaMs p
  | .usDelayM _ => usDelayOnTick deltaMs p
  | .byoYomiM bt bm => byoOnTick bt bm deltaMs p
  | .canadianM _ _ => countdownTick deltaMs p
  | .upcountM => upcountOnTick deltaMs p

/-- Match configuration (`periods` plus the optional defaults and asymmetric
starting-time overrides read by `GameState.initGame`). -/
structure Config where
  periods : List PeriodConfig
  freezeDefault : Option Bool := none
  soundDefault : Option Bool := none
  leftTimeMs : Option Int := none
  rightTimeMs : Option Int := none
  deriving DecidableEq

/-- JavaScript array indexing `periods[i]` for a possibly out-of-range or
negative index: `undefined` is modelled as `none`. -/
def getPeriodAt (l : List PeriodConfig) (i : Int) : Option PeriodConfig :=
  if 0 ≤ i then l.get? i.toNat else none

/-- Match state (`GameState`).  The listener registry and the `selectedOption`
number are not modelled; `notify()` calls are pure no-ops on this state. -/
structure GameState where
  status : GameStatus := .IDLE
  activePlayer : Option Side := none
  left : PlayerState := {}
  right : PlayerState := {}
  optionConfig : Option Config := none
  freezeEnabled : Bool := false
  soundEnabled : Bool := false
  hasBeenStarted : Bool := false
  preCorrectionStatus : Option GameStatus := none
  deriving DecidableEq

/-- `GameState.getPlayer`. -/
def GameState.getPlayer (gs : GameState) : Side → PlayerState
  | .left => gs.left
  | .right => gs.right

/-- `GameState.getOpponent`. -/
def GameState.getOpponent (gs : GameState) (s : Side) : PlayerState :=
  gs.getPlayer s.opponent

/-- Write back one player's state (assignment to `this.left` / `this.right`). -/
def GameState.setPlayer (gs : GameState) : Side → PlayerState → GameState
  | .left, p => { gs with left := p }
  | .right, p => { gs with right := p }

/-- `player.setFlag(...)` reached through the game state. -/
def GameState.setPlayerFlag (gs : GameState) (s : Side) (f : FlagState) : GameState :=
  gs.setPlayer s ((gs.getPlayer s).setFlag f)

/-- `GameState.isInFinalPeriod`: true when there is no configuration, else
when the player's period index is at least `periods.length - 1`. -/
def GameState.isInFinalPeriod (gs : GameState) (s : Side) : Bool :=
  match gs.optionConfig with
  | none => true
  | some cfg => decide ((cfg.periods.length : Int) - 1 ≤ (gs.getPlayer s).currentPeriod)

/-- `GameState.freeze`: running or paused becomes frozen, otherwise a no-op. -/
def GameState.freeze (gs : GameState) : GameState :=
  if gs.status = .RUNNING ∨ gs.status = .PAUSED then { gs with status := .FROZEN } else gs

/-- `GameState.exitCorrectionMode`: restore the remembered pre-correction
status (defaulting to paused), only from the correcting status. -/
def GameState.exitCorrectionMode (gs : GameState) : GameState :=
  if gs.status = .CORRECTING then
    { gs with status := gs.preCorrectionStatus.getD .PAUSED, preCorrectionStatus := none }
  else gs

/-- The body of `PlayerState.init` for one player: seed from the first
period.  The JavaScript `init` receives `delayMs` but never reads it; the
unmodelled cosmetic fields are listed on `PlayerState`. -/
def PlayerState.initFrom (p : PlayerState) (timeMs : Int) (byoMoments : Nat)
    (byoTimeMs : Int) : PlayerState :=
  { p with
    timeMs := timeMs
    currentPeriod := 0
    moves := 0
    flagState := .NONE
    delayRemainingMs := 0
    inDelay := false
    turnStartTimeMs := 0
    byoMomentsRemaining := byoMoments
    byoMomentTimeMs := byoTimeMs }

/-- `GameState.initGame`.  Mirrors the source's mutation order: the stored
configuration, status, active side, `hasBeenStarted` and the freeze/sound
defaults are assigned *before* the period-count validation throws, so the
failure value (`false` flag) carries those mutations; only the two player
states are untouched on failure. -/
def GameState.initGame (gs : GameState) (config : Config) : GameState × Bool :=
  let gs1 : GameState :=
    { gs with
      optionConfig := some config
      status := .IDLE
      activePlayer := none
      hasBeenStarted := false
      freezeEnabled := config.freezeDefault.getD false
      soundEnabled := config.soundDefault.getD false }
  match config.periods with
  | [] => (gs1, false)
  | firstPeriod :: _ =>
    let gs2 :=
      { gs1 with
        left := gs1.left.initFrom (config.leftTimeMs.getD firstPeriod.timeMs)
          firstPeriod.byoMoments firstPeriod.byoTimeMs
        right := gs1.right.initFrom (config.rightTimeMs.getD firstPeriod.timeMs)
          firstPeriod.byoMoments firstPeriod.byoTimeMs }
    (gs2, true)

/-- The `PeriodManager` fields: the active timing-method instance per side
and the move counts recorded at each side's period start. -/
structure PMState where
  leftMethod : Method := .timeM
  rightMethod : Method := .timeM
  periodStartMovesLeft : Int := 0
  periodStartMovesRight : Int := 0
  deriving DecidableEq

/-- `PeriodManager.getMethod` (always present after initialization). -/
def PMState.getMethod (pm : PMState) : Side → Method
  | .left => pm.leftMethod
  | .right => pm.rightMethod

/-- `this.activeMethods.set(side, m)`. -/
def PMState.setMethod (pm : PMState) : Side → Method → PMState
  | .left, m => { pm with leftMethod := m }
  | .right, m => { pm with rightMethod := m }

/-- `this._periodStartMoves[side] || 0`. -/
def PMState.getPeriodStartMoves (pm : PMState) : Side → Int
  | .left => pm.periodStartMovesLeft
  | .right => pm.periodStartMovesRight

/-- `this._periodStartMoves[side] = n`. -/
def PMState.setPeriodStartMoves (pm : PMState) : Side → Int → PMState
  | .left, n => { pm with periodStartMovesLeft := n }
  | .right, n => { pm with periodStartMovesRight := n }

/-- Result of `PeriodManager.onTick`.  The method result's `momentExpired`
field is not propagated by the source (its expiry/transition returns omit
it), so it is absent here. -/
structure PMResult where
  expired : Bool
  periodTransition : Bool
  deriving DecidableEq

/-- `PeriodManager._transitionPlayerToPeriod`: bump the period index, assign
the new period's time according to the new method family, clear the delay
sub-state, re-create the timing method and re-baseline the period-start move
count.  The `oldConfig` argument of the source is unused there and dropped
here. -/
def transitionPlayerToPeriod (pm : PMState) (gs : GameState) (side : Side)
    (periodIdx : Int) (newConfig : PeriodConfig) : PMState × GameState :=
  let p := gs.getPlayer side
  let p := { p with currentPeriod := periodIdx }
  let p :=
    match newConfig.method with
    | .BYO_YOMI =>
      { p with
        byoMomentsRemaining := newConfig.byoMoments
        byoMomentTimeMs := newConfig.byoTimeMs
        timeMs := newConfig.byoTimeMs }
    | .CANADIAN_BYO => { p with timeMs := newConfig.byoTimeMs }
    | .UPCOUNT => { p with timeMs := 0 }
    | _ => { p with timeMs := p.timeMs + newConfig.timeMs }
  let p := { p with delayRemainingMs := 0, inDelay := false }
  let pm := pm.setMethod side (createMethod newConfig)
  let pm := pm.setPeriodStartMoves side p.moves
  (pm, gs.setPlayer side p)

/-- `PeriodManager._transitionToNextPeriod`.  A missing configuration or a
negative period index would fault in the source when the period array is
dereferenced; those unreachable states are modelled as no-ops. -/
def transitionToNextPeriod (pm : PMState) (gs : GameState) (side : Side)
    (moveBasedTransition : Bool) : PMState × GameState × PMResult :=
  match gs.optionConfig with
  | none => (pm, gs, ⟨false, false⟩)
  | some cfg =>
    let currentPeriodIdx := (gs.getPlayer side).currentPeriod
    let nextPeriodIdx := currentPeriodIdx + 1
    if (cfg.periods.length : Int) ≤ nextPeriodIdx then
      (pm, gs.setPlayerFlag side .BLINKING, ⟨true, false⟩)
    else
      match getPeriodAt cfg.periods nextPeriodIdx with
      | none => (pm, gs, ⟨false, false⟩)
      | some nextPC =>
        if nextPC.method = .END then
          (pm, gs.setPlayerFlag side .BLINKING, ⟨true, false⟩)
        else if moveBasedTransition then
          let r := transitionPlayerToPeriod pm gs side nextPeriodIdx nextPC
          (r.1, r.2, ⟨false, true⟩)
        else
          let gs := gs.setPlayerFlag side .NON_BLINKING
          let r := transitionPlayerToPeriod pm gs side nextPeriodIdx nextPC
          if (r.2.getOpponent side).currentPeriod = currentPeriodIdx then
            let r2 := transitionPlayerToPeriod r.1 r.2 side.opponent nextPeriodIdx nextPC
            (r2.1, r2.2, ⟨false, true⟩)
          else (r.1, r.2, ⟨false, true⟩)

/-- `PeriodManager._handleExpiry`: blinking flag in the final period,
otherwise transition to the next period. -/
def handleExpiry (pm : PMState) (gs : GameState) (side : Side) :
    PMState × GameState × PMResult :=
  if gs.isInFinalPeriod side then
    (pm, gs.setPlayerFlag side .BLINKING, ⟨true, false⟩)
  else transitionToNextPeriod pm gs side false

/-- `PeriodManager.onTick`: run the active method's tick, then resolve
expiry, or a Fischer move-based period completion, into transitions. -/
def pmOnTick (pm : PMState) (gs : GameState) (deltaMs : Int) (side : Side) :
    PMState × GameState × PMResult :=
  let m := pm.getMethod side
  let tr := methodOnTick m deltaMs (gs.getPlayer side)
  let gs := gs.setPlayer side tr.1
  if tr.2.expired then handleExpiry pm gs side
  else
    match m with
    | .fischerM _ movesRequired =>
      if fischerIsPeriodCompleteByMoves movesRequired tr.1 (pm.getPeriodStartMoves side) then
        transitionToNextPeriod pm gs side true
      else (pm, gs, ⟨false, false⟩)
    | _ => (pm, gs, ⟨false, false⟩)

/-- `MoveCounter` state. -/
structure MoveCounterState where
  leftMoves : Int := 0
  rightMoves : Int := 0
  deriving DecidableEq

/-- `MoveCounter.setMoves`: clamp negative counts to zero. -/
def MoveCounterState.setMoves (mc : MoveCounterState) : Side → Int → MoveCounterState
  | .left, c => { mc with leftMoves := max 0 c }
  | .right, c => { mc with rightMoves := max 0 c }

/-- The application shell's state relevant to the tick and correction paths:
the match state, the period manager, the move counter and whether the
`TimerEngine` loop is running. -/
structure AppState where
  gs : GameState
  pm : PMState := {}
  mc : MoveCounterState := {}
  timerRunning : Bool := false
  deriving DecidableEq

/-- `App._onTick`: ignore ticks unless running with an active side; feed the
period manager; on expiry set a blinking flag on the active side if it has
none, and freeze the match (stopping the timer engine) exactly when freeze
mode is enabled and the active side is in its final period.  The sound and
display calls of the source do not touch this state. -/
def appOnTick (app : AppState) (deltaMs : Int) : AppState :=
  match app.gs.activePlayer with
  | none => app
  | some side =>
    if app.gs.status = .RUNNING then
      let r := pmOnTick app.pm app.gs deltaMs side
      let pm := r.1
      let gs := r.2.1
      if r.2.2.expired then
        let gs :=
          if (gs.getPlayer side).flagState = .NONE then gs.setPlayerFlag side .BLINKING
          else gs
        if gs.freezeEnabled ∧ gs.isInFinalPeriod side then
          { app with gs := gs.freeze, pm := pm, timerRunning := false }
        else { app with gs := gs, pm := pm }
      else { app with gs := gs, pm := pm }
    else app

/-- The corrected values handed to the `App._enterCorrection` apply callback. -/
structure Corrected where
  leftTimeMs : Int
  rightTimeMs : Int
  leftMoves : Int
  rightMoves : Int
  leftPeriod : Int
  rightPeriod : Int
  deriving DecidableEq

/-- The apply callback of `App._enterCorrection`: write the corrected times,
moves and periods into both player states, update the move counter (which
clamps negatives), then — when a configuration is present — clamp both period
indices into `[0, totalPeriods-1]` and re-instantiate both sides' timing
methods from the periods at the clamped indices, and finally leave
correction mode. -/
def applyCorrection (app : AppState) (c : Corrected) : AppState :=
  let gs := app.gs
  let left := { gs.left with timeMs := c.leftTimeMs, moves := c.leftMoves }
  let left := { left with currentPeriod := c.leftPeriod }
  let right := { gs.right with timeMs := c.rightTimeMs, moves := c.rightMoves }
  let right := { right with currentPeriod := c.rightPeriod }
  let mc := (app.mc.setMoves .left c.leftMoves).setMoves .right c.rightMoves
  match gs.optionConfig with
  | some cfg =>
    let maxPeriod : Int := (cfg.periods.length : Int) - 1
    let left := { left with currentPeriod := max 0 (min c.leftPeriod maxPeriod) }
    let right := { right with currentPeriod := max 0 (min c.rightPeriod maxPeriod) }
    let pm :=
      match getPeriodAt cfg.periods left.currentPeriod with
      | some pc => app.pm.setMethod .left (createMethod pc)
      | none => app.pm
    let pm :=
      match getPeriodAt cfg.periods right.currentPeriod with
      | some pc => pm.setMethod .right (createMethod pc)
      | none => pm
    { app with
      gs := GameState.exitCorrectionMode { gs with left := left, right := right }
      pm := pm
      mc := mc }
  | none =>
    { app with
      gs := GameState.exitCorrectionMode { gs with left := left, right := right }
      mc := mc }

/-- Events emitted by the `TimerEngine` within one handler invocation, in
order: tick-callback deliveries and frame-loop (re)scheduling. -/
inductive TEEvent
  | tick (deltaMs : Int)
  | scheduleFrame
  deriving DecidableEq

/-- `TimerEngine` state: the running flag, the last monotonic
(`performance.now()`) timestamp, the wall-clock (`Date.now()`) stamp taken
when the tab was hidden, and whether an animation frame is pending. -/
structure TimerEngineState where
  running : Bool := false
  lastTimestamp : Int := 0
  hiddenAtWallClock : Int := 0
  rafPending : Bool := false
  deriving DecidableEq

/-- `TimerEngine._tick`: while running, deliver the monotonic delta since
the previous tick clamped to at most 1000 ms — only when positive — then
schedule the next frame. -/
def teTick (te : TimerEngineState) (timestamp : Int) : TimerEngineState × List TEEvent :=
  if te.running then
    let delta := timestamp - te.lastTimestamp
    let clampedDelta := min delta 1000
    let out := if 0 < clampedDelta then [TEEvent.tick clampedDelta] else []
    ({ te with lastTimestamp := timestamp, rafPending := true },
     out ++ [TEEvent.scheduleFrame])
  else (te, [])

/-- `TimerEngine._handleVisibilityChange`: ignored when not running.  On
becoming visible, cancel the pending frame, deliver the wall-clock time
elapsed since suspension (uncapped, only when positive) as a single tick,
re-baseline the monotonic timestamp and restart the frame loop.  On becoming
hidden, cancel the pending frame and record the wall-clock timestamp. -/
def teVisibilityChange (te : TimerEngineState) (visible : Bool)
    (nowWall : Int) (nowPerf : Int) : TimerEngineState × List TEEvent :=
  if te.running then
    if visible then
      let delta := nowWall - te.hiddenAtWallClock
      let out := if 0 < delta then [TEEvent.tick delta] else []
      ({ te with rafPending := true, lastTimestamp := nowPerf },
       out ++ [TEEvent.scheduleFrame])
    else ({ te with rafPending := false, hiddenAtWallClock := nowWall }, [])
  else (te, [])

/-- A sample two-period configuration (5 minutes sudden death, then 1 minute
sudden death) used as a concrete test input. -/
def demoSyncConfig : Config :=
  { periods := [{ method := .TIME, timeMs := 300000 },
      { method := .TIME, timeMs := 60000 }] }

/-- A sample match state under `demoSyncConfig`: both sides in period 0,
left at 100 ms, right at 5000 ms. -/
def demoSyncState : GameState :=
  { optionConfig := some demoSyncConfig
    left := { timeMs := 100 }
    right := { timeMs := 5000 } }

/-- A sample one-period sudden-death application state used as a concrete
test input: freeze mode enabled, match running with the left side active on
5000 ms, scheduler running. -/
def demoFreezeApp : AppState :=
  { gs :=
      { status := .RUNNING
        activePlayer := some .left
        freezeEnabled := true
        left := { timeMs := 5000 }
        optionConfig := some { periods := [{ method := .TIME, timeMs := 300000 }] } }
    timerRunning := true }

/-! ### Helper lemmas -/

theorem side_opponent_opponent (s : Side) : s.opponent.opponent = s := by
  cases s <;> rfl

theorem getPlayer_setPlayer_same (gs : GameState) (s : Side) (p : PlayerState) :
    (gs.setPlayer s p).getPlayer s = p := by
  cases s <;> rfl

theorem getPlayer_setPlayer_opp (gs : GameState) (s : Side) (p : PlayerState) :
    (gs.setPlayer s p).getPlayer s.opponent = gs.getPlayer s.opponent := by
  cases s <;> rfl

theorem setPlayer_optionConfig (gs : GameState) (s : Side) (p : PlayerState) :
    (gs.setPlayer s p).optionConfig = gs.optionConfig := by
  cases s <;> rfl

theorem setPlayer_status (gs : GameState) (s : Side) (p : PlayerState) :
    (gs.setPlayer s p).status = gs.status := by
  cases s <;> rfl

theorem setPlayer_freezeEnabled (gs : GameState) (s : Side) (p : PlayerState) :
    (gs.setPlayer s p).freezeEnabled = gs.freezeEnabled := by
  cases s <;> rfl

theorem setPlayer_activePlayer (gs : GameState) (s : Side) (p : PlayerState) :
    (gs.setPlayer s p).activePlayer = gs.activePlayer := by
  cases s <;> rfl

theorem countdownTick_turnStart (d : Int) (p : PlayerState) :
    ((countdownTick d p).1).turnStartTimeMs = p.turnStartTimeMs := by
  simp only [countdownTick]
  split <;> rfl

theorem bronsteinTicks_turnStart (ds : List Int) (p : PlayerState) :
    (bronsteinTicks ds p).turnStartTimeMs = p.turnStartTimeMs := by
  induction ds generalizing p with
  | nil => rfl
  | cons d ds ih =>
    show (bronsteinTicks ds (countdownTick d p).1).turnStartTimeMs = _
    rw [ih, countdownTick_turnStart]

theorem bronsteinTicks_le (ds : List Int) (p : PlayerState) (S : Int)
    (hds : ∀ d ∈ ds, 0 ≤ d) (hS : 0 < S) (h0 : p.timeMs ≤ S) :
    (bronsteinTicks ds p).timeMs ≤ S := by
  induction ds generalizing p with
  | nil => exact h0
  | cons d ds ih =>
    have hd : 0 ≤ d := hds d (List.mem_cons_self d ds)
    have hstep : ((countdownTick d p).1).timeMs ≤ S := by
      simp only [countdownTick]
      split <;> simp <;> omega
    exact ih (countdownTick d p).1 (fun x hx => hds x (List.mem_cons_of_mem d hx)) hstep

theorem byoLoop_exit (byoTimeMs t : Int) (m : Nat) (b : Bool) (h : ¬t ≤ 0) :
    byoLoop byoTimeMs t (m + 1) b = (t, m + 1, b, false) := by
  rw [byoLoop, if_neg h]

theorem byoLoop_last (byoTimeMs t : Int) (b : Bool) (h : t ≤ 0) :
    byoLoop byoTimeMs t 1 b = (0, 0, true, true) := by
  rw [byoLoop, if_pos h]
  rfl

theorem byoLoop_step (byoTimeMs t : Int) (m : Nat) (b : Bool) (h : t ≤ 0) (hm : m ≠ 0) :
    byoLoop byoTimeMs t (m + 1) b = byoLoop byoTimeMs (t + byoTimeMs) m true := by
  rw [byoLoop, if_pos h, if_neg hm]

theorem byoLoop_early (byoTimeMs : Int) (m : Nat) :
    ∀ (t : Int) (b : Bool), (byoLoop byoTimeMs t m b).2.2.2 = true →
      (byoLoop byoTimeMs t m b).1 = 0 ∧ (byoLoop byoTimeMs t m b).2.1 = 0 := by
  induction m with
  | zero =>
    intro t b h
    simp [byoLoop] at h
  | succ m ih =>
    intro t b h
    by_cases h1 : t ≤ 0
    · by_cases h2 : m = 0
      · subst h2
        rw [byoLoop_last byoTimeMs t b h1]
        exact ⟨rfl, rfl⟩
      · rw [byoLoop_step byoTimeMs t m b h1 h2] at h ⊢
        exact ih (t + byoTimeMs) true h
    · rw [byoLoop_exit byoTimeMs t m b h1] at h
      simp at h

theorem byoLoop_stuck (byoTimeMs : Int) (m : Nat) :
    ∀ (t : Int) (b : Bool), (byoLoop byoTimeMs t m b).2.2.2 = false →
      (byoLoop byoTimeMs t m b).1 ≤ 0 → (byoLoop byoTimeMs t m b).2.1 = 0 := by
  induction m with
  | zero =>
    intro t b _ _
    rfl
  | succ m ih =>
    intro t b he hle
    by_cases h1 : t ≤ 0
    · by_cases h2 : m = 0
      · subst h2
        rw [byoLoop_last byoTimeMs t b h1] at he
        simp at he
      · rw [byoLoop_step byoTimeMs t m b h1 h2] at he hle ⊢
        exact ih (t + byoTimeMs) true he hle
    · rw [byoLoop_exit byoTimeMs t m b h1] at hle
      simp only at hle
      omega

theorem byoLoop_carry (byoTimeMs : Int) (m : Nat) :
    ∀ (t : Int) (b : Bool), (byoLoop byoTimeMs t m b).2.2.2 = false →
      t ≤ 0 → 0 < (byoLoop byoTimeMs t m b).1 →
      (byoLoop byoTimeMs t m b).1 =
        t + byoTimeMs * ((m : Int) - ((byoLoop byoTimeMs t m b).2.1 : Int)) ∧
      (byoLoop byoTimeMs t m b).2.1 < m := by
  induction m with
  | zero =>
    intro t b _ ht hpos
    simp only [byoLoop] at hpos
    omega
  | succ m ih =>
    intro t b he ht hpos
    by_cases h2 : m = 0
    · subst h2
      rw [byoLoop_last byoTimeMs t b ht] at he
      simp at he
    · rw [byoLoop_step byoTimeMs t m b ht h2] at he hpos ⊢
      by_cases hrec : t + byoTimeMs ≤ 0
      · obtain ⟨e1, e2⟩ := ih (t + byoTimeMs) true he hrec hpos
        refine ⟨?_, by omega⟩
        rw [e1]
        push_cast
        ring
      · obtain ⟨m', rfl⟩ : ∃ m', m = m' + 1 := ⟨m - 1, by omega⟩
        rw [byoLoop_exit byoTimeMs (t + byoTimeMs) m' true hrec]
        simp only
        constructor
        · push_cast
          ring
        · omega

theorem Side.opponent_ne (s : Side) : s.opponent ≠ s := by
  cases s <;> decide

theorem getPlayer_setPlayer_ne (gs : GameState) (s s' : Side) (p : PlayerState)
    (h : s' ≠ s) : (gs.setPlayer s p).getPlayer s' = gs.getPlayer s' := by
  cases s <;> cases s' <;> first | rfl | exact absurd rfl h

theorem setPlayerFlag_status (gs : GameState) (s : Side) (f : FlagState) :
    (gs.setPlayerFlag s f).status = gs.status :=
  setPlayer_status gs s _

theorem setPlayerFlag_freezeEnabled (gs : GameState) (s : Side) (f : FlagState) :
    (gs.setPlayerFlag s f).freezeEnabled = gs.freezeEnabled :=
  setPlayer_freezeEnabled gs s _

theorem setPlayerFlag_optionConfig (gs : GameState) (s : Side) (f : FlagState) :
    (gs.setPlayerFlag s f).optionConfig = gs.optionConfig :=
  setPlayer_optionConfig gs s _

theorem setPlayerFlag_getPlayer_same (gs : GameState) (s : Side) (f : FlagState) :
    (gs.setPlayerFlag s f).getPlayer s = (gs.getPlayer s).setFlag f :=
  getPlayer_setPlayer_same gs s _

theorem setPlayerFlag_getPlayer_ne (gs : GameState) (s s' : Side) (f : FlagState)
    (h : s' ≠ s) : (gs.setPlayerFlag s f).getPlayer s' = gs.getPlayer s' :=
  getPlayer_setPlayer_ne gs s s' _ h

theorem setPlayerFlag_currentPeriod (gs : GameState) (s s' : Side) (f : FlagState) :
    ((gs.setPlayerFlag s f).getPlayer s').currentPeriod =
      (gs.getPlayer s').currentPeriod := by
  by_cases h : s' = s
  · subst h
    rw [setPlayerFlag_getPlayer_same]
    rfl
  · rw [setPlayerFlag_getPlayer_ne gs s s' f h]

theorem setPlayerFlag_isInFinalPeriod (gs : GameState) (s s' : Side) (f : FlagState) :
    (gs.setPlayerFlag s f).isInFinalPeriod s' = gs.isInFinalPeriod s' := by
  unfold GameState.isInFinalPeriod
  rw [setPlayerFlag_optionConfig, setPlayerFlag_currentPeriod]

theorem freeze_getPlayer (gs : GameState) (s : Side) :
    (gs.freeze).getPlayer s = gs.getPlayer s := by
  unfold GameState.freeze
  split <;> cases s <;> rfl

theorem freeze_status_of_running (gs : GameState) (h : gs.status = .RUNNING) :
    (gs.freeze).status = .FROZEN := by
  unfold GameState.freeze
  rw [if_pos (Or.inl h)]

theorem methodOnTick_currentPeriod (m : Method) (d : Int) (p : PlayerState) :
    ((methodOnTick m d p).1).currentPeriod = p.currentPeriod := by
  cases m <;>
    simp only [methodOnTick, countdownTick, usDelayOnTick, byoOnTick, upcountOnTick] <;>
    split_ifs <;> rfl

theorem tptp_snd (pm : PMState) (gs : GameState) (side : Side) (i : Int)
    (pc : PeriodConfig) :
    ∃ q, (transitionPlayerToPeriod pm gs side i pc).2 = gs.setPlayer side q := by
  unfold transitionPlayerToPeriod
  exact ⟨_, rfl⟩

theorem tptp_status (pm : PMState) (gs : GameState) (side : Side) (i : Int)
    (pc : PeriodConfig) :
    (transitionPlayerToPeriod pm gs side i pc).2.status = gs.status := by
  obtain ⟨q, hq⟩ := tptp_snd pm gs side i pc
  rw [hq, setPlayer_status]

theorem tptp_freezeEnabled (pm : PMState) (gs : GameState) (side : Side) (i : Int)
    (pc : PeriodConfig) :
    (transitionPlayerToPeriod pm gs side i pc).2.freezeEnabled = gs.freezeEnabled := by
  obtain ⟨q, hq⟩ := tptp_snd pm gs side i pc
  rw [hq, setPlayer_freezeEnabled]

theorem tptp_optionConfig (pm : PMState) (gs : GameState) (side : Side) (i : Int)
    (pc : PeriodConfig) :
    (transitionPlayerToPeriod pm gs side i pc).2.optionConfig = gs.optionConfig := by
  obtain ⟨q, hq⟩ := tptp_snd pm gs side i pc
  rw [hq, setPlayer_optionConfig]

theorem tptp_getPlayer_ne (pm : PMState) (gs : GameState) (side s' : Side) (i : Int)
    (pc : PeriodConfig) (h : s' ≠ side) :
    (transitionPlayerToPeriod pm gs side i pc).2.getPlayer s' = gs.getPlayer s' := by
  obtain ⟨q, hq⟩ := tptp_snd pm gs side i pc
  rw [hq, getPlayer_setPlayer_ne gs side s' q h]

theorem tptp_player_main (pm : PMState) (gs : GameState) (side : Side) (i : Int)
    (pc : PeriodConfig) (h : isMainTimeMethod pc.method = true) :
    (transitionPlayerToPeriod pm gs side i pc).2.getPlayer side =
      { gs.getPlayer side with
        currentPeriod := i
        timeMs := (gs.getPlayer side).timeMs + pc.timeMs
        delayRemainingMs := 0
        inDelay := false } := by
  unfold transitionPlayerToPeriod
  rw [getPlayer_setPlayer_same]
  cases hm : pc.method <;> simp [isMainTimeMethod, hm] at h ⊢

theorem ttnp_status (pm : PMState) (gs : GameState) (side : Side) (mb : Bool) :
    (transitionToNextPeriod pm gs side mb).2.1.status = gs.status := by
  unfold transitionToNextPeriod
  cases hoc : gs.optionConfig with
  | none => rfl
  | some cfg =>
    dsimp only
    by_cases h1 : (cfg.periods.length : Int) ≤ (gs.getPlayer side).currentPeriod + 1
    · rw [if_pos h1, setPlayerFlag_status]
    · rw [if_neg h1]
      cases hpc : getPeriodAt cfg.periods ((gs.getPlayer side).currentPeriod + 1) with
      | none => rfl
      | some pc =>
        dsimp only
        by_cases h2 : pc.method = .END
        · rw [if_pos h2, setPlayerFlag_status]
        · rw [if_neg h2]
          by_cases h3 : mb = true
          · rw [if_pos h3]
            rw [tptp_status]
          · rw [if_neg h3]
            split_ifs <;>
              simp only [tptp_status, setPlayerFlag_status]

theorem ttnp_freezeEnabled (pm : PMState) (gs : GameState) (side : Side) (mb : Bool) :
    (transitionToNextPeriod pm gs side mb).2.1.freezeEnabled = gs.freezeEnabled := by
  unfold transitionToNextPeriod
  cases hoc : gs.optionConfig with
  | none => rfl
  | some cfg =>
    dsimp only
    by_cases h1 : (cfg.periods.length : Int) ≤ (gs.getPlayer side).currentPeriod + 1
    · rw [if_pos h1, setPlayerFlag_freezeEnabled]
    · rw [if_neg h1]
      cases hpc : getPeriodAt cfg.periods ((gs.getPlayer side).currentPeriod + 1) with
      | none => rfl
      | some pc =>
        dsimp only
        by_cases h2 : pc.method = .END
        · rw [if_pos h2, setPlayerFlag_freezeEnabled]
        · rw [if_neg h2]
          by_cases h3 : mb = true
          · rw [if_pos h3]
            rw [tptp_freezeEnabled]
          · rw [if_neg h3]
            split_ifs <;>
              simp only [tptp_freezeEnabled, setPlayerFlag_freezeEnabled]

theorem handleExpiry_status (pm : PMState) (gs : GameState) (side : Side) :
    (handleExpiry pm gs side).2.1.status = gs.status := by
  unfold handleExpiry
  split_ifs
  · rw [setPlayerFlag_status]
  · rw [ttnp_status]

theorem handleExpiry_freezeEnabled (pm : PMState) (gs : GameState) (side : Side) :
    (handleExpiry pm gs side).2.1.freezeEnabled = gs.freezeEnabled := by
  unfold handleExpiry
  split_ifs
  · rw [setPlayerFlag_freezeEnabled]
  · rw [ttnp_freezeEnabled]

theorem pmOnTick_status (pm : PMState) (gs : GameState) (d : Int) (side : Side) :
    (pmOnTick pm gs d side).2.1.status = gs.status := by
  unfold pmOnTick
  dsimp only
  split_ifs
  · rw [handleExpiry_status, setPlayer_status]
  · cases pm.getMethod side <;> dsimp only <;>
      first
      | rw [setPlayer_status]
      | (split_ifs <;> simp only [ttnp_status, setPlayer_status])

theorem pmOnTick_freezeEnabled (pm : PMState) (gs : GameState) (d : Int) (side : Side) :
    (pmOnTick pm gs d side).2.1.freezeEnabled = gs.freezeEnabled := by
  unfold pmOnTick
  dsimp only
  split_ifs
  · rw [handleExpiry_freezeEnabled, setPlayer_freezeEnabled]
  · cases pm.getMethod side <;> dsimp only <;>
      first
      | rw [setPlayer_freezeEnabled]
      | (split_ifs <;> simp only [ttnp_freezeEnabled, setPlayer_freezeEnabled])

theorem getPeriodAt_some (l : List PeriodConfig) (i : Int) (h0 : 0 ≤ i)
    (h1 : i < (l.length : Int)) : ∃ pc, getPeriodAt l i = some pc := by
  unfold getPeriodAt
  rw [if_pos h0]
  have h2 : i.toNat < l.length := by omega
  exact ⟨l.get ⟨i.toNat, h2⟩, List.get?_eq_get h2⟩

theorem exitCorrectionMode_left (gs : GameState) :
    gs.exitCorrectionMode.left = gs.left := by
  unfold GameState.exitCorrectionMode
  split <;> rfl

theorem exitCorrectionMode_right (gs : GameState) :
    gs.exitCorrectionMode.right = gs.right := by
  unfold GameState.exitCorrectionMode
  split <;> rfl

/-- C3: for every Bronstein turn (a turn-start snapshot followed by
nonnegative ticks) that ends with positive remaining time and a positive
snapshot, `onTurnEnd` adds back `min(bonusPerMove, time used this turn)`, the
post-turn-end remaining time is at most the remaining time recorded at the
turn's start and at least `min(remaining_after_tick + bonus,
turnStartSnapshot)`; the compensation is skipped entirely when the clock is
expired or the snapshot is ≤ 0. -/
theorem C3_bronstein_cap :
    (∀ (delayMs : Int) (c0 : PlayerState) (ds : List Int),
      (∀ d ∈ ds, 0 ≤ d) →
      0 < (bronsteinTicks ds (bronsteinOnTurnStart c0)).timeMs →
      0 < (bronsteinTicks ds (bronsteinOnTurnStart c0)).turnStartTimeMs →
      (bronsteinOnTurnEnd delayMs (bronsteinTicks ds (bronsteinOnTurnStart c0))).timeMs =
          (bronsteinTicks ds (bronsteinOnTurnStart c0)).timeMs +
            min delayMs ((bronsteinTicks ds (bronsteinOnTurnStart c0)).turnStartTimeMs -
              (bronsteinTicks ds (bronsteinOnTurnStart c0)).timeMs) ∧
        (bronsteinOnTurnEnd delayMs (bronsteinTicks ds (bronsteinOnTurnStart c0))).timeMs ≤
          c0.timeMs ∧
        min ((bronsteinTicks ds (bronsteinOnTurnStart c0)).timeMs + delayMs)
            ((bronsteinTicks ds (bronsteinOnTurnStart c0)).turnStartTimeMs) ≤
          (bronsteinOnTurnEnd delayMs (bronsteinTicks ds (bronsteinOnTurnStart c0))).timeMs) ∧
    (∀ (delayMs : Int) (c : PlayerState),
      c.timeMs ≤ 0 ∨ c.turnStartTimeMs ≤ 0 → bronsteinOnTurnEnd delayMs c = c) := by
  constructor
  · intro delayMs c0 ds hds h2 h3
    have hsnap : (bronsteinTicks ds (bronsteinOnTurnStart c0)).turnStartTimeMs = c0.timeMs := by
      rw [bronsteinTicks_turnStart]
      rfl
    have hS : 0 < c0.timeMs := by omega
    have hle : (bronsteinTicks ds (bronsteinOnTurnStart c0)).timeMs ≤ c0.timeMs :=
      bronsteinTicks_le ds (bronsteinOnTurnStart c0) c0.timeMs hds hS (le_refl _)
    have hmain : (bronsteinOnTurnEnd delayMs (bronsteinTicks ds (bronsteinOnTurnStart c0))).timeMs
        = (bronsteinTicks ds (bronsteinOnTurnStart c0)).timeMs +
          min delayMs ((bronsteinTicks ds (bronsteinOnTurnStart c0)).turnStartTimeMs -
            (bronsteinTicks ds (bronsteinOnTurnStart c0)).timeMs) := by
      simp only [bronsteinOnTurnEnd]
      split_ifs with hA hB hC
      · omega
      · omega
      · simp only
        omega
      · simp only
        omega
    refine ⟨hmain, ?_, ?_⟩ <;> omega
  · intro delayMs c hc
    simp only [bronsteinOnTurnEnd]
    split_ifs with hA hB hC
    · rfl
    · rfl
    · exfalso
      omega
    · exfalso
      omega

/-- Witness for C3 at a concrete turn: snapshot 10000 ms, one tick of
3000 ms, bonus 2000 ms. -/
theorem C3_bronstein_cap_witness :
    (∀ d ∈ [(3000 : Int)], 0 ≤ d) ∧
    0 < (bronsteinTicks [3000]
      (bronsteinOnTurnStart { timeMs := 10000 })).timeMs ∧
    0 < (bronsteinTicks [3000]
      (bronsteinOnTurnStart { timeMs := 10000 })).turnStartTimeMs ∧
    ((bronsteinOnTurnEnd 2000 (bronsteinTicks [3000]
        (bronsteinOnTurnStart { timeMs := 10000 }))).timeMs =
      (bronsteinTicks [3000] (bronsteinOnTurnStart { timeMs := 10000 })).timeMs +
        min 2000 ((bronsteinTicks [3000]
          (bronsteinOnTurnStart { timeMs := 10000 })).turnStartTimeMs -
          (bronsteinTicks [3000] (bronsteinOnTurnStart { timeMs := 10000 })).timeMs) ∧
      (bronsteinOnTurnEnd 2000 (bronsteinTicks [3000]
        (bronsteinOnTurnStart { timeMs := 10000 }))).timeMs ≤
        ({ timeMs := 10000 } : PlayerState).timeMs ∧
      min ((bronsteinTicks [3000]
          (bronsteinOnTurnStart { timeMs := 10000 })).timeMs + 2000)
          ((bronsteinTicks [3000]
            (bronsteinOnTurnStart { timeMs := 10000 })).turnStartTimeMs) ≤
        (bronsteinOnTurnEnd 2000 (bronsteinTicks [3000]
          (bronsteinOnTurnStart { timeMs := 10000 }))).timeMs) :=
  ⟨by decide, by decide, by decide,
    C3_bronstein_cap.1 2000 { timeMs := 10000 } [3000] (by decide) (by decide) (by decide)⟩

/-- C4: for finite byo-yomi (configured `byoMoments ≠ 0`) with more than one
moment remaining and remaining time equal to the full moment time, a single
`onTick` of size `byoTime + k` with `0 < k < byoTime` consumes exactly one
moment, reports `momentExpired` without expiry, and leaves
`remaining = byoTime - k`; in general a delta overflowing the current moment
is consumed moment-by-moment with the negative overflow carried (the final
remaining time is the post-subtraction value plus one moment allotment per
consumed moment), and expiry — with remaining 0 — is reported only with the
moment count exhausted. -/
theorem C4_byo_moment_overflow :
    (∀ (byoTimeMs k : Int) (byoMoments : Nat) (p : PlayerState),
      byoMoments ≠ 0 → 2 ≤ p.byoMomentsRemaining → p.timeMs = byoTimeMs →
      0 < k → k < byoTimeMs →
      (byoOnTick byoTimeMs byoMoments (byoTimeMs + k) p).1.byoMomentsRemaining =
          p.byoMomentsRemaining - 1 ∧
        (byoOnTick byoTimeMs byoMoments (byoTimeMs + k) p).2.momentExpired = true ∧
        (byoOnTick byoTimeMs byoMoments (byoTimeMs + k) p).2.expired = false ∧
        (byoOnTick byoTimeMs byoMoments (byoTimeMs + k) p).1.timeMs = byoTimeMs - k) ∧
    (∀ (byoTimeMs deltaMs : Int) (byoMoments : Nat) (p : PlayerState),
      byoMoments ≠ 0 →
      (byoOnTick byoTimeMs byoMoments deltaMs p).2.expired = true →
      (byoOnTick byoTimeMs byoMoments deltaMs p).1.byoMomentsRemaining = 0 ∧
        (byoOnTick byoTimeMs byoMoments deltaMs p).1.timeMs = 0) ∧
    (∀ (byoTimeMs deltaMs : Int) (byoMoments : Nat) (p : PlayerState),
      byoMoments ≠ 0 → p.timeMs - deltaMs ≤ 0 →
      (byoOnTick byoTimeMs byoMoments deltaMs p).2.expired = false →
      (byoOnTick byoTimeMs byoMoments deltaMs p).1.timeMs =
          p.timeMs - deltaMs +
            byoTimeMs * ((p.byoMomentsRemaining : Int) -
              ((byoOnTick byoTimeMs byoMoments deltaMs p).1.byoMomentsRemaining : Int)) ∧
        0 < (byoOnTick byoTimeMs byoMoments deltaMs p).1.timeMs ∧
        (byoOnTick byoTimeMs byoMoments deltaMs p).1.byoMomentsRemaining <
          p.byoMomentsRemaining) := by
  refine ⟨?_, ?_, ?_⟩
  · intro byoTimeMs k byoMoments p hmz h2 heq hk hkb
    obtain ⟨m, hm⟩ : ∃ m, p.byoMomentsRemaining = m + 2 :=
      ⟨p.byoMomentsRemaining - 2, by omega⟩
    have h1 : p.timeMs - (byoTimeMs + k) ≤ 0 := by omega
    have hstep := byoLoop_step byoTimeMs (p.timeMs - (byoTimeMs + k)) (m + 1) false h1
      (by omega)
    have hexit := byoLoop_exit byoTimeMs (p.timeMs - (byoTimeMs + k) + byoTimeMs) m true
      (by omega)
    have hpos : ¬(p.timeMs - (byoTimeMs + k) + byoTimeMs ≤ 0) := by omega
    simp only [byoOnTick, if_pos h1, if_neg hmz, hm, hstep, hexit]
    simp [hpos]
    omega
  · intro byoTimeMs deltaMs byoMoments p hmz hexp
    by_cases h1 : p.timeMs - deltaMs ≤ 0
    · simp only [byoOnTick, if_pos h1, if_neg hmz] at hexp ⊢
      by_cases ha :
          (byoLoop byoTimeMs (p.timeMs - deltaMs) p.byoMomentsRemaining false).2.2.2 = true
      · obtain ⟨e1, e2⟩ :=
          byoLoop_early byoTimeMs p.byoMomentsRemaining (p.timeMs - deltaMs) false ha
        simp [ha, e1, e2]
      · by_cases hb :
            (byoLoop byoTimeMs (p.timeMs - deltaMs) p.byoMomentsRemaining false).1 ≤ 0
        · have e2 := byoLoop_stuck byoTimeMs p.byoMomentsRemaining (p.timeMs - deltaMs)
            false (by simpa using ha) hb
          simp [ha, hb, e2]
        · exfalso
          by_cases hc : (byoLoop byoTimeMs (p.timeMs - deltaMs)
              p.byoMomentsRemaining false).2.2.1 = true <;>
            simp [ha, hb, hc] at hexp
    · exfalso
      simp only [byoOnTick, if_neg h1] at hexp
      simp at hexp
  · intro byoTimeMs deltaMs byoMoments p hmz h1 hexp
    simp only [byoOnTick, if_pos h1, if_neg hmz] at hexp ⊢
    by_cases ha :
        (byoLoop byoTimeMs (p.timeMs - deltaMs) p.byoMomentsRemaining false).2.2.2 = true
    · simp [ha] at hexp
    · by_cases hb :
          (byoLoop byoTimeMs (p.timeMs - deltaMs) p.byoMomentsRemaining false).1 ≤ 0
      · simp [ha, hb] at hexp
      · obtain ⟨e1, e2⟩ :=
          byoLoop_carry byoTimeMs p.byoMomentsRemaining (p.timeMs - deltaMs) false
            (by simpa using ha) h1 (by omega)
        by_cases hc : (byoLoop byoTimeMs (p.timeMs - deltaMs)
            p.byoMomentsRemaining false).2.2.1 = true <;>
          · simp [ha, hb, hc]
            refine ⟨by linarith [e1], by omega, by omega⟩

/-- Witness for C4: moment time 5000 ms, three moments remaining, remaining
time 5000 ms, tick of 5000 + 2000: one moment is consumed and 3000 ms
remain. -/
theorem C4_byo_moment_overflow_witness :
    ((3 : Nat) ≠ 0 ∧ 2 ≤ ({ timeMs := 5000, byoMomentsRemaining := 3 } :
        PlayerState).byoMomentsRemaining ∧
      ({ timeMs := 5000, byoMomentsRemaining := 3 } : PlayerState).timeMs = 5000 ∧
      (0 : Int) < 2000 ∧ (2000 : Int) < 5000) ∧
    ((byoOnTick 5000 3 (5000 + 2000)
        { timeMs := 5000, byoMomentsRemaining := 3 }).1.byoMomentsRemaining =
      ({ timeMs := 5000, byoMomentsRemaining := 3 } :
        PlayerState).byoMomentsRemaining - 1 ∧
      (byoOnTick 5000 3 (5000 + 2000)
        { timeMs := 5000, byoMomentsRemaining := 3 }).2.momentExpired = true ∧
      (byoOnTick 5000 3 (5000 + 2000)
        { timeMs := 5000, byoMomentsRemaining := 3 }).2.expired = false ∧
      (byoOnTick 5000 3 (5000 + 2000)
        { timeMs := 5000, byoMomentsRemaining := 3 }).1.timeMs = 5000 - 2000) :=
  ⟨⟨by decide, by decide, by decide, by decide, by decide⟩,
    C4_byo_moment_overflow.1 5000 2000 3 { timeMs := 5000, byoMomentsRemaining := 3 }
      (by decide) (by decide) (by decide) (by decide) (by decide)⟩

/-- C5 counterexample: in the delay phase with `delayRemaining = 1000` and
main time 500 ms, a tick of `1000 + 1000` does not reduce the main time by
exactly `k = 1000`; the code clamps the main time at 0 (a reduction of only
500 ms), so the claim's "main time reduced by exactly k" fails. -/
theorem C5_us_delay_counterexample :
    (usDelayOnTick (1000 + 1000)
        { timeMs := 500, delayRemainingMs := 1000, inDelay := true }).1.timeMs ≠
      ({ timeMs := 500, delayRemainingMs := 1000, inDelay := true } : PlayerState).timeMs -
        1000 := by
  decide

/-- C5 (amended): in the delay phase with `delayRemaining = d` and
nonnegative main time, a single `onTick` of size `d + k` with `0 < k ≤` main
time ends with `inDelay = false`, `delayRemaining = 0` and main time reduced
by exactly `k`; when `k` exceeds the main time, the main time is instead
clamped to 0 (with expiry reported); while in the delay phase with
`0 ≤ delta < d`, the main time is unchanged and only `delayRemaining`
decreases (by `delta`). -/
theorem C5_us_delay_overflow :
    (∀ (p : PlayerState) (k : Int), p.inDelay = true → 0 < k → k ≤ p.timeMs →
      (usDelayOnTick (p.delayRemainingMs + k) p).1.inDelay = false ∧
      (usDelayOnTick (p.delayRemainingMs + k) p).1.delayRemainingMs = 0 ∧
      (usDelayOnTick (p.delayRemainingMs + k) p).1.timeMs = p.timeMs - k) ∧
    (∀ (p : PlayerState) (k : Int), p.inDelay = true → 0 ≤ p.timeMs → p.timeMs < k →
      (usDelayOnTick (p.delayRemainingMs + k) p).1.inDelay = false ∧
      (usDelayOnTick (p.delayRemainingMs + k) p).1.delayRemainingMs = 0 ∧
      (usDelayOnTick (p.delayRemainingMs + k) p).1.timeMs = 0 ∧
      (usDelayOnTick (p.delayRemainingMs + k) p).2.expired = true) ∧
    (∀ (p : PlayerState) (deltaMs : Int), p.inDelay = true → 0 ≤ p.timeMs →
      0 ≤ deltaMs → deltaMs < p.delayRemainingMs →
      (usDelayOnTick deltaMs p).1.timeMs = p.timeMs ∧
      (usDelayOnTick deltaMs p).1.inDelay = true ∧
      (usDelayOnTick deltaMs p).1.delayRemainingMs = p.delayRemainingMs - deltaMs) := by
  refine ⟨?_, ?_, ?_⟩
  · intro p k hin hk hkle
    simp only [usDelayOnTick, hin, if_true]
    split_ifs with h1 h2 h3 h3 <;> simp_all <;> omega
  · intro p k hin h0 hlt
    simp only [usDelayOnTick, hin, if_true]
    split_ifs with h1 h2 h3 h3 <;> simp_all <;> omega
  · intro p deltaMs hin h0 hd hlt
    simp only [usDelayOnTick, hin, if_true]
    split_ifs with h1 h2 h3 h3 <;> simp_all <;> omega

/-- Witness for C5 (amended): main 5000 ms, delay remaining 1000 ms; a tick
of 1000 + 700 leaves the delay cleared and main reduced to 4300; a tick of
400 inside the delay leaves main untouched. -/
theorem C5_us_delay_overflow_witness :
    (({ timeMs := 5000, delayRemainingMs := 1000, inDelay := true } : PlayerState).inDelay =
        true ∧
      (0 : Int) < 700 ∧
      (700 : Int) ≤
        ({ timeMs := 5000, delayRemainingMs := 1000, inDelay := true } : PlayerState).timeMs ∧
      (usDelayOnTick
          (({ timeMs := 5000, delayRemainingMs := 1000, inDelay := true } :
            PlayerState).delayRemainingMs + 700)
          { timeMs := 5000, delayRemainingMs := 1000, inDelay := true }).1.inDelay = false ∧
      (usDelayOnTick
          (({ timeMs := 5000, delayRemainingMs := 1000, inDelay := true } :
            PlayerState).delayRemainingMs + 700)
          { timeMs := 5000, delayRemainingMs := 1000,
            inDelay := true }).1.delayRemainingMs = 0 ∧
      (usDelayOnTick
          (({ timeMs := 5000, delayRemainingMs := 1000, inDelay := true } :
            PlayerState).delayRemainingMs + 700)
          { timeMs := 5000, delayRemainingMs := 1000, inDelay := true }).1.timeMs =
        ({ timeMs := 5000, delayRemainingMs := 1000, inDelay := true } :
          PlayerState).timeMs - 700) ∧
    ((usDelayOnTick 400
        { timeMs := 5000, delayRemainingMs := 1000, inDelay := true }).1.timeMs =
      ({ timeMs := 5000, delayRemainingMs := 1000, inDelay := true } :
        PlayerState).timeMs ∧
      (usDelayOnTick 400
        { timeMs := 5000, delayRemainingMs := 1000, inDelay := true }).1.inDelay = true ∧
      (usDelayOnTick 400
        { timeMs := 5000, delayRemainingMs := 1000,
          inDelay := true }).1.delayRemainingMs =
        ({ timeMs := 5000, delayRemainingMs := 1000, inDelay := true } :
          PlayerState).delayRemainingMs - 400) :=
  ⟨⟨by decide, by decide, by decide,
    C5_us_delay_overflow.1 { timeMs := 5000, delayRemainingMs := 1000, inDelay := true } 700
      (by decide) (by decide) (by decide)⟩,
    C5_us_delay_overflow.2.2 { timeMs := 5000, delayRemainingMs := 1000, inDelay := true } 400
      (by decide) (by decide) (by decide) (by decide)⟩

/-- C9 counterexample: `UsDelayMethod.onTurnEnd` sets `inDelay` to `false`,
not `true` as the claim states. -/
theorem C9_us_delay_turn_end_counterexample :
    (usDelayOnTurnEnd
      ({ timeMs := 60000, delayRemainingMs := 777, inDelay := true } :
        PlayerState)).inDelay ≠ true := by
  decide

/-- C9 (amended): `onTurnEnd` on any clock state resets `inDelay` to `false`
and `delayRemaining` to 0; the delay countdown is repopulated — `inDelay`
back to `true` and `delayRemaining` to the method's `delayMs` — at the next
turn start. -/
theorem C9_us_delay_turn_end :
    (∀ p : PlayerState,
      usDelayOnTurnEnd p = { p with inDelay := false, delayRemainingMs := 0 }) ∧
    (∀ (delayMs : Int) (p : PlayerState),
      usDelayOnTurnStart delayMs p =
        { p with inDelay := true, delayRemainingMs := delayMs }) :=
  ⟨fun _ => rfl, fun _ _ => rfl⟩

/-- C10: in infinite byo-yomi mode (`byoMoments = 0`), every `onTick` with a
nonnegative delta reports no expiry and leaves the remaining time strictly
positive; when the reload overflow is at least the full moment time the
remaining time is floored at exactly 1 ms; and `isExpired` is always false
in this mode. -/
theorem C10_byo_infinite_never_expires :
    ∀ (byoTimeMs deltaMs : Int) (p : PlayerState), 0 ≤ deltaMs →
      (byoOnTick byoTimeMs 0 deltaMs p).2.expired = false ∧
      0 < (byoOnTick byoTimeMs 0 deltaMs p).1.timeMs ∧
      (p.timeMs - deltaMs ≤ 0 → byoTimeMs ≤ deltaMs - p.timeMs →
        (byoOnTick byoTimeMs 0 deltaMs p).1.timeMs = 1) ∧
      byoIsExpired 0 p = false := by
  intro byoTimeMs deltaMs p hd
  refine ⟨?_, ?_, ?_, rfl⟩
  · simp only [byoOnTick]
    split_ifs <;> rfl
  · simp only [byoOnTick]
    split_ifs with h1 h2 <;> simp only <;> omega
  · intro hneg hover
    simp only [byoOnTick, if_pos hneg, if_pos rfl]
    split_ifs <;> simp only <;> omega

/-- Witness for C10: moment time 5000 ms, remaining 1000 ms, tick of
9000 ms — the overflow (8000) exceeds the moment time, so remaining is
floored at 1 ms. -/
theorem C10_byo_infinite_never_expires_witness :
    (0 : Int) ≤ 9000 ∧
    ((byoOnTick 5000 0 9000 ({ timeMs := 1000 } : PlayerState)).2.expired = false ∧
      0 < (byoOnTick 5000 0 9000 ({ timeMs := 1000 } : PlayerState)).1.timeMs ∧
      (({ timeMs := 1000 } : PlayerState).timeMs - 9000 ≤ 0 →
        (5000 : Int) ≤ 9000 - ({ timeMs := 1000 } : PlayerState).timeMs →
        (byoOnTick 5000 0 9000 ({ timeMs := 1000 } : PlayerState)).1.timeMs = 1) ∧
      byoIsExpired 0 ({ timeMs := 1000 } : PlayerState) = false) :=
  ⟨by decide, C10_byo_infinite_never_expires 5000 9000 { timeMs := 1000 } (by decide)⟩

/-- C6: while running, a foreground tick delivers the monotonic difference
from the previous tick capped at 1000 ms (nothing when that is non-positive)
and then re-schedules the frame; a resume from suspension delivers the
wall-clock time elapsed since the suspension timestamp as a single uncapped
tick before the frame loop restarts; visibility-change signals are ignored
entirely when the scheduler is not running. -/
theorem C6_scheduler_deltas :
    (∀ (te : TimerEngineState) (timestamp : Int), te.running = true →
      (0 < min (timestamp - te.lastTimestamp) 1000 →
        (teTick te timestamp).2 =
          [TEEvent.tick (min (timestamp - te.lastTimestamp) 1000),
            TEEvent.scheduleFrame]) ∧
      (min (timestamp - te.lastTimestamp) 1000 ≤ 0 →
        (teTick te timestamp).2 = [TEEvent.scheduleFrame])) ∧
    (∀ (te : TimerEngineState) (nowWall nowPerf : Int), te.running = true →
      0 < nowWall - te.hiddenAtWallClock →
      (teVisibilityChange te true nowWall nowPerf).2 =
          [TEEvent.tick (nowWall - te.hiddenAtWallClock), TEEvent.scheduleFrame] ∧
        (teVisibilityChange te true nowWall nowPerf).1.rafPending = true ∧
        (teVisibilityChange te true nowWall nowPerf).1.lastTimestamp = nowPerf) ∧
    (∀ (te : TimerEngineState) (visible : Bool) (nowWall nowPerf : Int),
      te.running = false →
      teVisibilityChange te visible nowWall nowPerf = (te, [])) := by
  refine ⟨?_, ?_, ?_⟩
  · intro te timestamp hrun
    constructor
    · intro hpos
      simp [teTick, hrun, hpos]
    · intro hle
      have : ¬(0 < min (timestamp - te.lastTimestamp) 1000) := by omega
      simp [teTick, hrun, this]
  · intro te nowWall nowPerf hrun hpos
    refine ⟨?_, ?_, ?_⟩ <;> simp [teVisibilityChange, hrun, hpos]
  · intro te visible nowWall nowPerf hrun
    simp [teVisibilityChange, hrun]

/-- Witness for C6: a running engine with last timestamp 100 ticking at
timestamp 1600 delivers a capped 1000 ms delta; a resume 3000 ms of
wall-clock after suspension delivers a single uncapped 3000 ms tick before
the frame restart; a stopped engine ignores a visibility signal. -/
theorem C6_scheduler_deltas_witness :
    (({ running := true, lastTimestamp := 100 } : TimerEngineState).running = true ∧
      0 < min ((1600 : Int) -
        ({ running := true, lastTimestamp := 100 } : TimerEngineState).lastTimestamp) 1000 ∧
      (teTick { running := true, lastTimestamp := 100 } 1600).2 =
        [TEEvent.tick (min ((1600 : Int) -
          ({ running := true, lastTimestamp := 100 } :
            TimerEngineState).lastTimestamp) 1000), TEEvent.scheduleFrame]) ∧
    (({ running := true, hiddenAtWallClock := 500 } : TimerEngineState).running = true ∧
      0 < (3500 : Int) -
        ({ running := true, hiddenAtWallClock := 500 } :
          TimerEngineState).hiddenAtWallClock ∧
      (teVisibilityChange { running := true, hiddenAtWallClock := 500 } true 3500 42).2 =
        [TEEvent.tick ((3500 : Int) -
          ({ running := true, hiddenAtWallClock := 500 } :
            TimerEngineState).hiddenAtWallClock), TEEvent.scheduleFrame]) ∧
    (({ running := false, lastTimestamp := 7 } : TimerEngineState).running = false ∧
      teVisibilityChange { running := false, lastTimestamp := 7 } true 9999 1 =
        ({ running := false, lastTimestamp := 7 }, [])) :=
  ⟨⟨by decide, by decide,
      (C6_scheduler_deltas.1 { running := true, lastTimestamp := 100 } 1600 (by decide)).1
        (by decide)⟩,
    ⟨by decide, by decide,
      (C6_scheduler_deltas.2.1 { running := true, hiddenAtWallClock := 500 } 3500 42
        (by decide) (by decide)).1⟩,
    ⟨by decide,
      C6_scheduler_deltas.2.2 { running := false, lastTimestamp := 7 } true 9999 1
        (by decide)⟩⟩

/-- C7 counterexample: `initGame` with a zero-period configuration fails,
but the failing call does not leave the match state unchanged — here the
freeze setting of a state with `freezeEnabled = true` has already been
overwritten to `false` (and the stored configuration, status and active side
are likewise overwritten) before the validation error. -/
theorem C7_initGame_counterexample :
    ((({ freezeEnabled := true, status := .RUNNING } : GameState).initGame
        { periods := [] }).2 = false) ∧
      ((({ freezeEnabled := true, status := .RUNNING } : GameState).initGame
          { periods := [] }).1.freezeEnabled ≠
        ({ freezeEnabled := true, status := .RUNNING } : GameState).freezeEnabled) := by
  decide

/-- C7 (amended): `initGame` fails exactly when the supplied configuration
has zero periods; in that failing case both players' Clocks are left
unchanged, but the stored configuration, status (reset to idle), active side
(cleared), `hasBeenStarted` and the freeze/sound settings have already been
overwritten from the new configuration before the failure is raised. -/
theorem C7_initGame_zero_periods :
    (∀ (gs : GameState) (cfg : Config),
      (gs.initGame cfg).2 = false ↔ cfg.periods = []) ∧
    (∀ (gs : GameState) (cfg : Config), cfg.periods = [] →
      (gs.initGame cfg).1.left = gs.left ∧
      (gs.initGame cfg).1.right = gs.right ∧
      (gs.initGame cfg).1.optionConfig = some cfg ∧
      (gs.initGame cfg).1.status = .IDLE ∧
      (gs.initGame cfg).1.activePlayer = none ∧
      (gs.initGame cfg).1.hasBeenStarted = false ∧
      (gs.initGame cfg).1.freezeEnabled = cfg.freezeDefault.getD false ∧
      (gs.initGame cfg).1.soundEnabled = cfg.soundDefault.getD false) := by
  constructor
  · intro gs cfg
    rcases hp : cfg.periods with _ | ⟨f, rest⟩ <;>
      simp [GameState.initGame, hp]
  · intro gs cfg hp
    simp [GameState.initGame, hp]

/-- Witness for C7 (amended) at a concrete running state with freeze enabled
and an empty-period configuration. -/
theorem C7_initGame_zero_periods_witness :
    ({ periods := [], freezeDefault := some false } : Config).periods = [] ∧
    ((({ freezeEnabled := true, status := .RUNNING } : GameState).initGame
        { periods := [], freezeDefault := some false }).1.left =
      ({ freezeEnabled := true, status := .RUNNING } : GameState).left ∧
    (({ freezeEnabled := true, status := .RUNNING } : GameState).initGame
        { periods := [], freezeDefault := some false }).1.right =
      ({ freezeEnabled := true, status := .RUNNING } : GameState).right ∧
    (({ freezeEnabled := true, status := .RUNNING } : GameState).initGame
        { periods := [], freezeDefault := some false }).1.optionConfig =
      some { periods := [], freezeDefault := some false } ∧
    (({ freezeEnabled := true, status := .RUNNING } : GameState).initGame
        { periods := [], freezeDefault := some false }).1.status = .IDLE ∧
    (({ freezeEnabled := true, status := .RUNNING } : GameState).initGame
        { periods := [], freezeDefault := some false }).1.activePlayer = none ∧
    (({ freezeEnabled := true, status := .RUNNING } : GameState).initGame
        { periods := [], freezeDefault := some false }).1.hasBeenStarted = false ∧
    (({ freezeEnabled := true, status := .RUNNING } : GameState).initGame
        { periods := [], freezeDefault := some false }).1.freezeEnabled =
      ({ periods := [], freezeDefault := some false } :
        Config).freezeDefault.getD false ∧
    (({ freezeEnabled := true, status := .RUNNING } : GameState).initGame
        { periods := [], freezeDefault := some false }).1.soundEnabled =
      ({ periods := [], freezeDefault := some false } :
        Config).soundDefault.getD false) :=
  ⟨by decide,
    C7_initGame_zero_periods.2
      { freezeEnabled := true, status := .RUNNING }
      { periods := [], freezeDefault := some false } (by decide)⟩

/-- C1: in a two-period configuration whose second period is a main-time
(countdown) method, when the active side's method tick reports expiry while
that side is in period 0, the period-manager tick promotes that side to
period 1 with a non-blinking flag and adds period 1's main time to its
post-tick remaining time; the opponent is promoted the same way — period 1
and period 1's main time added — exactly when the opponent is still in
period 0, and is left untouched when it has already transitioned past
period 0. -/
theorem C1_time_based_period_sync :
    ∀ (pm : PMState) (gs : GameState) (side : Side) (cfg : Config)
      (p0 p1 : PeriodConfig) (deltaMs : Int),
      gs.optionConfig = some cfg → cfg.periods = [p0, p1] →
      isMainTimeMethod p1.method = true →
      (gs.getPlayer side).currentPeriod = 0 →
      (methodOnTick (pm.getMethod side) deltaMs (gs.getPlayer side)).2.expired = true →
      (((gs.getOpponent side).currentPeriod = 0 →
        ((pmOnTick pm gs deltaMs side).2.1.getPlayer side).currentPeriod = 1 ∧
        ((pmOnTick pm gs deltaMs side).2.1.getOpponent side).currentPeriod = 1 ∧
        ((pmOnTick pm gs deltaMs side).2.1.getPlayer side).flagState = .NON_BLINKING ∧
        ((pmOnTick pm gs deltaMs side).2.1.getPlayer side).timeMs =
          (methodOnTick (pm.getMethod side) deltaMs (gs.getPlayer side)).1.timeMs +
            p1.timeMs ∧
        ((pmOnTick pm gs deltaMs side).2.1.getOpponent side).timeMs =
          (gs.getOpponent side).timeMs + p1.timeMs ∧
        (pmOnTick pm gs deltaMs side).2.2.expired = false ∧
        (pmOnTick pm gs deltaMs side).2.2.periodTransition = true) ∧
      ((gs.getOpponent side).currentPeriod ≠ 0 →
        ((pmOnTick pm gs deltaMs side).2.1.getPlayer side).currentPeriod = 1 ∧
        ((pmOnTick pm gs deltaMs side).2.1.getPlayer side).flagState = .NON_BLINKING ∧
        ((pmOnTick pm gs deltaMs side).2.1.getPlayer side).timeMs =
          (methodOnTick (pm.getMethod side) deltaMs (gs.getPlayer side)).1.timeMs +
            p1.timeMs ∧
        (pmOnTick pm gs deltaMs side).2.1.getOpponent side = gs.getOpponent side)) := by
  intro pm gs side cfg p0 p1 deltaMs hoc hper hmain hcp hexp
  obtain ⟨tr, htr⟩ : ∃ tr, methodOnTick (pm.getMethod side) deltaMs (gs.getPlayer side) = tr :=
    ⟨_, rfl⟩
  rw [htr] at hexp ⊢
  have htrcp : tr.1.currentPeriod = 0 := by
    rw [← htr, methodOnTick_currentPeriod]
    exact hcp
  have hlen : cfg.periods.length = 2 := by
    rw [hper]
    rfl
  have hnend : ¬(p1.method = TimingMethodType.END) := by
    intro h
    rw [h] at hmain
    simp [isMainTimeMethod] at hmain
  -- step 1: the tick reduces to expiry handling on the updated state
  have e1 : pmOnTick pm gs deltaMs side =
      handleExpiry pm (gs.setPlayer side tr.1) side := by
    unfold pmOnTick
    dsimp only
    rw [htr, if_pos hexp]
  -- step 2: period 0 of 2 is not final, so expiry becomes a transition
  have hfin : (gs.setPlayer side tr.1).isInFinalPeriod side = false := by
    unfold GameState.isInFinalPeriod
    rw [setPlayer_optionConfig, hoc]
    dsimp only
    rw [getPlayer_setPlayer_same, htrcp, hlen]
    decide
  have e2 : handleExpiry pm (gs.setPlayer side tr.1) side =
      transitionToNextPeriod pm (gs.setPlayer side tr.1) side false := by
    unfold handleExpiry
    rw [hfin]
    simp only [Bool.false_eq_true, if_false]
  rw [e1, e2]
  -- step 3: unfold the transition
  have hga : getPeriodAt cfg.periods ((0 : Int) + 1) = some p1 := by
    rw [hper]
    rfl
  have hc1 : ¬((cfg.periods.length : Int) ≤ (0 : Int) + 1) := by
    rw [hlen]
    norm_num
  unfold transitionToNextPeriod
  rw [setPlayer_optionConfig, hoc]
  dsimp only
  rw [getPlayer_setPlayer_same, htrcp, if_neg hc1, hga]
  dsimp only
  rw [if_neg hnend]
  simp only [Bool.false_eq_true, if_false]
  -- the transitioned active side
  have hplayer :
      (transitionPlayerToPeriod pm
        ((gs.setPlayer side tr.1).setPlayerFlag side FlagState.NON_BLINKING) side
        ((0 : Int) + 1) p1).2.getPlayer side =
      { tr.1.setFlag FlagState.NON_BLINKING with
        currentPeriod := (0 : Int) + 1
        timeMs := tr.1.timeMs + p1.timeMs
        delayRemainingMs := 0
        inDelay := false } := by
    rw [tptp_player_main _ _ _ _ _ hmain, setPlayerFlag_getPlayer_same,
      getPlayer_setPlayer_same]
    rfl
  -- the opponent is untouched by the active side's transition
  have hoppEq :
      (transitionPlayerToPeriod pm
        ((gs.setPlayer side tr.1).setPlayerFlag side FlagState.NON_BLINKING) side
        ((0 : Int) + 1) p1).2.getPlayer side.opponent =
      gs.getPlayer side.opponent := by
    rw [tptp_getPlayer_ne _ _ _ _ _ _ (Side.opponent_ne side),
      setPlayerFlag_getPlayer_ne _ _ _ _ (Side.opponent_ne side),
      getPlayer_setPlayer_opp]
  constructor
  · -- opponent still in period 0: both promoted
    intro hopp0
    have hcond :
        ((transitionPlayerToPeriod pm
          ((gs.setPlayer side tr.1).setPlayerFlag side FlagState.NON_BLINKING) side
          ((0 : Int) + 1) p1).2.getOpponent side).currentPeriod = (0 : Int) := by
      show ((transitionPlayerToPeriod pm
        ((gs.setPlayer side tr.1).setPlayerFlag side FlagState.NON_BLINKING) side
        ((0 : Int) + 1) p1).2.getPlayer side.opponent).currentPeriod = (0 : Int)
      rw [hoppEq]
      exact hopp0
    rw [if_pos hcond]
    have hplayer2 :
        (transitionPlayerToPeriod
          (transitionPlayerToPeriod pm
            ((gs.setPlayer side tr.1).setPlayerFlag side FlagState.NON_BLINKING) side
            ((0 : Int) + 1) p1).1
          (transitionPlayerToPeriod pm
            ((gs.setPlayer side tr.1).setPlayerFlag side FlagState.NON_BLINKING) side
            ((0 : Int) + 1) p1).2
          side.opponent ((0 : Int) + 1) p1).2.getPlayer side.opponent =
        { gs.getPlayer side.opponent with
          currentPeriod := (0 : Int) + 1
          timeMs := (gs.getPlayer side.opponent).timeMs + p1.timeMs
          delayRemainingMs := 0
          inDelay := false } := by
      rw [tptp_player_main _ _ _ _ _ hmain, hoppEq]
    have hside2 :
        (transitionPlayerToPeriod
          (transitionPlayerToPeriod pm
            ((gs.setPlayer side tr.1).setPlayerFlag side FlagState.NON_BLINKING) side
            ((0 : Int) + 1) p1).1
          (transitionPlayerToPeriod pm
            ((gs.setPlayer side tr.1).setPlayerFlag side FlagState.NON_BLINKING) side
            ((0 : Int) + 1) p1).2
          side.opponent ((0 : Int) + 1) p1).2.getPlayer side =
        (transitionPlayerToPeriod pm
          ((gs.setPlayer side tr.1).setPlayerFlag side FlagState.NON_BLINKING) side
          ((0 : Int) + 1) p1).2.getPlayer side := by
      rw [tptp_getPlayer_ne _ _ _ _ _ _ (Ne.symm (Side.opponent_ne side))]
    dsimp only [GameState.getOpponent]
    refine ⟨?_, ?_, ?_, ?_, ?_, rfl, rfl⟩
    · rw [hside2, hplayer]
      simp
    · rw [hplayer2]
      simp
    · rw [hside2, hplayer]
      rfl
    · rw [hside2, hplayer]
    · rw [hplayer2]
  · -- opponent already past period 0: only the active side is promoted
    intro hoppne
    have hcond :
        ¬(((transitionPlayerToPeriod pm
          ((gs.setPlayer side tr.1).setPlayerFlag side FlagState.NON_BLINKING) side
          ((0 : Int) + 1) p1).2.getOpponent side).currentPeriod = (0 : Int)) := by
      show ¬(((transitionPlayerToPeriod pm
        ((gs.setPlayer side tr.1).setPlayerFlag side FlagState.NON_BLINKING) side
        ((0 : Int) + 1) p1).2.getPlayer side.opponent).currentPeriod = (0 : Int))
      rw [hoppEq]
      exact hoppne
    rw [if_neg hcond]
    dsimp only [GameState.getOpponent]
    refine ⟨?_, ?_, ?_, ?_⟩
    · rw [hplayer]
      simp
    · rw [hplayer]
      rfl
    · rw [hplayer]
    · rw [hoppEq]

/-- Witness for C1: under `demoSyncConfig`, the left side (100 ms, sudden
death) expires on a 200 ms tick while the right side is still in period 0;
both end in period 1, the left flag is non-blinking, and both have received
period 1's 60000 ms. -/
theorem C1_time_based_period_sync_witness :
    demoSyncState.optionConfig = some demoSyncConfig ∧
    demoSyncConfig.periods = [{ method := .TIME, timeMs := 300000 },
      { method := .TIME, timeMs := 60000 }] ∧
    isMainTimeMethod ({ method := .TIME, timeMs := 60000 } : PeriodConfig).method = true ∧
    (demoSyncState.getPlayer .left).currentPeriod = 0 ∧
    (methodOnTick (PMState.getMethod {} .left) 200
      (demoSyncState.getPlayer .left)).2.expired = true ∧
    (demoSyncState.getOpponent .left).currentPeriod = 0 ∧
    (((pmOnTick {} demoSyncState 200 .left).2.1.getPlayer .left).currentPeriod = 1 ∧
      ((pmOnTick {} demoSyncState 200 .left).2.1.getOpponent .left).currentPeriod = 1 ∧
      ((pmOnTick {} demoSyncState 200 .left).2.1.getPlayer .left).flagState =
        .NON_BLINKING ∧
      ((pmOnTick {} demoSyncState 200 .left).2.1.getPlayer .left).timeMs =
        (methodOnTick (PMState.getMethod {} .left) 200
          (demoSyncState.getPlayer .left)).1.timeMs +
          ({ method := .TIME, timeMs := 60000 } : PeriodConfig).timeMs ∧
      ((pmOnTick {} demoSyncState 200 .left).2.1.getOpponent .left).timeMs =
        (demoSyncState.getOpponent .left).timeMs +
          ({ method := .TIME, timeMs := 60000 } : PeriodConfig).timeMs ∧
      (pmOnTick {} demoSyncState 200 .left).2.2.expired = false ∧
      (pmOnTick {} demoSyncState 200 .left).2.2.periodTransition = true) :=
  ⟨rfl, rfl, by decide, by decide, by decide, by decide,
    (C1_time_based_period_sync {} demoSyncState .left demoSyncConfig
      { method := .TIME, timeMs := 300000 } { method := .TIME, timeMs := 60000 } 200
      rfl rfl (by decide) (by decide) (by decide)).1 (by decide)⟩

/-- C2: on a tick delivered while the match is running with an active side,
if the period-manager tick result signals expiry then the active side's flag
is set (non-`NONE`) regardless of the freeze setting; the match status
becomes frozen with the scheduler stopped if and only if the result signals
expiry, freeze mode is enabled, and the active side is in its final period;
otherwise the status stays running. -/
theorem C2_tick_expiry_flag_freeze :
    ∀ (app : AppState) (deltaMs : Int) (side : Side),
      app.gs.status = .RUNNING → app.gs.activePlayer = some side →
      app.timerRunning = true →
      ((pmOnTick app.pm app.gs deltaMs side).2.2.expired = true →
        ((appOnTick app deltaMs).gs.getPlayer side).flagState ≠ .NONE) ∧
      (((appOnTick app deltaMs).gs.status = .FROZEN ∧
          (appOnTick app deltaMs).timerRunning = false) ↔
        ((pmOnTick app.pm app.gs deltaMs side).2.2.expired = true ∧
          app.gs.freezeEnabled = true ∧
          (pmOnTick app.pm app.gs deltaMs side).2.1.isInFinalPeriod side = true)) ∧
      (¬((pmOnTick app.pm app.gs deltaMs side).2.2.expired = true ∧
          app.gs.freezeEnabled = true ∧
          (pmOnTick app.pm app.gs deltaMs side).2.1.isInFinalPeriod side = true) →
        (appOnTick app deltaMs).gs.status = .RUNNING) := by
  intro app deltaMs side hst hap ht
  unfold appOnTick
  rw [hap]
  dsimp only
  rw [if_pos hst]
  set r := pmOnTick app.pm app.gs deltaMs side with hr
  have hstat : r.2.1.status = .RUNNING := by
    rw [hr, pmOnTick_status]
    exact hst
  have hfz : r.2.1.freezeEnabled = app.gs.freezeEnabled := by
    rw [hr, pmOnTick_freezeEnabled]
  by_cases hexp : r.2.2.expired = true
  · rw [if_pos hexp]
    set gs1 := if (r.2.1.getPlayer side).flagState = FlagState.NONE then
      r.2.1.setPlayerFlag side FlagState.BLINKING else r.2.1 with hgs1
    have hgs1f : gs1.freezeEnabled = app.gs.freezeEnabled := by
      rw [hgs1]
      split_ifs with h
      · rw [setPlayerFlag_freezeEnabled]
        exact hfz
      · exact hfz
    have hgs1fin : gs1.isInFinalPeriod side = r.2.1.isInFinalPeriod side := by
      rw [hgs1]
      split_ifs with h
      · rw [setPlayerFlag_isInFinalPeriod]
      · rfl
    have hgs1st : gs1.status = .RUNNING := by
      rw [hgs1]
      split_ifs with h
      · rw [setPlayerFlag_status]
        exact hstat
      · exact hstat
    have hgs1flag : (gs1.getPlayer side).flagState ≠ .NONE := by
      rw [hgs1]
      split_ifs with h
      · rw [setPlayerFlag_getPlayer_same]
        intro hcontra
        exact absurd hcontra (by simp [PlayerState.setFlag])
      · exact h
    by_cases hc : app.gs.freezeEnabled = true ∧ r.2.1.isInFinalPeriod side = true
    · have hcond : gs1.freezeEnabled = true ∧ gs1.isInFinalPeriod side = true := by
        rw [hgs1f, hgs1fin]
        exact hc
      rw [if_pos hcond]
      refine ⟨?_, ?_, ?_⟩
      · intro _
        show ((gs1.freeze).getPlayer side).flagState ≠ .NONE
        rw [freeze_getPlayer]
        exact hgs1flag
      · constructor
        · intro _
          exact ⟨hexp, hc.1, hc.2⟩
        · intro _
          exact ⟨freeze_status_of_running gs1 hgs1st, rfl⟩
      · intro hnc
        exact absurd ⟨hexp, hc.1, hc.2⟩ hnc
    · have hcond : ¬(gs1.freezeEnabled = true ∧ gs1.isInFinalPeriod side = true) := by
        rw [hgs1f, hgs1fin]
        exact hc
      rw [if_neg hcond]
      refine ⟨?_, ?_, ?_⟩
      · intro _
        exact hgs1flag
      · constructor
        · intro hl
          exfalso
          have hfr : gs1.status = .FROZEN := hl.1
          rw [hgs1st] at hfr
          exact absurd hfr (by decide)
        · intro hrr
          exact absurd ⟨hrr.2.1, hrr.2.2⟩ hc
      · intro _
        exact hgs1st
  · rw [if_neg hexp]
    refine ⟨?_, ?_, ?_⟩
    · intro h
      exact absurd h hexp
    · constructor
      · intro hl
        exfalso
        have hfr : r.2.1.status = .FROZEN := hl.1
        rw [hstat] at hfr
        exact absurd hfr (by decide)
      · intro hrr
        exact absurd hrr.1 hexp
    · intro _
      exact hstat

/-- Witness for C2: a single-period sudden-death match with freeze enabled,
5000 ms on the running left side, and a 6000 ms tick — the left flag ends
non-`NONE`, and the match is frozen with the scheduler stopped. -/
theorem C2_tick_expiry_flag_freeze_witness :
    demoFreezeApp.gs.status = .RUNNING ∧
    demoFreezeApp.gs.activePlayer = some .left ∧
    demoFreezeApp.timerRunning = true ∧
    ((appOnTick demoFreezeApp 6000).gs.getPlayer .left).flagState ≠ .NONE ∧
    (appOnTick demoFreezeApp 6000).gs.status = .FROZEN ∧
    (appOnTick demoFreezeApp 6000).timerRunning = false := by
  have h := C2_tick_expiry_flag_freeze demoFreezeApp 6000 .left rfl rfl rfl
  refine ⟨rfl, rfl, rfl, h.1 (by decide), ?_, ?_⟩
  · exact (h.2.1.mpr ⟨by decide, rfl, by decide⟩).1
  · exact (h.2.1.mpr ⟨by decide, rfl, by decide⟩).2

/-- C8: with a configuration present, applying a correction clamps each
side's period index into `[0, totalPeriods-1]`, clamps negative move counts
to 0 on the move counter, and re-instantiates each side's timing method from
the period configuration at that side's (clamped) period index. -/
theorem C8_correction_clamps :
    ∀ (app : AppState) (c : Corrected) (cfg : Config),
      app.gs.optionConfig = some cfg → 1 ≤ cfg.periods.length →
      (0 ≤ (applyCorrection app c).gs.left.currentPeriod ∧
        (applyCorrection app c).gs.left.currentPeriod ≤
          (cfg.periods.length : Int) - 1) ∧
      (0 ≤ (applyCorrection app c).gs.right.currentPeriod ∧
        (applyCorrection app c).gs.right.currentPeriod ≤
          (cfg.periods.length : Int) - 1) ∧
      (applyCorrection app c).mc.leftMoves = max 0 c.leftMoves ∧
      (applyCorrection app c).mc.rightMoves = max 0 c.rightMoves ∧
      (∃ pc, getPeriodAt cfg.periods (applyCorrection app c).gs.left.currentPeriod =
          some pc ∧ (applyCorrection app c).pm.leftMethod = createMethod pc) ∧
      (∃ pc, getPeriodAt cfg.periods (applyCorrection app c).gs.right.currentPeriod =
          some pc ∧ (applyCorrection app c).pm.rightMethod = createMethod pc) := by
  intro app c cfg hcfg hlen
  obtain ⟨pcL, hpcL⟩ := getPeriodAt_some cfg.periods
    (max 0 (min c.leftPeriod ((cfg.periods.length : Int) - 1))) (by omega) (by omega)
  obtain ⟨pcR, hpcR⟩ := getPeriodAt_some cfg.periods
    (max 0 (min c.rightPeriod ((cfg.periods.length : Int) - 1))) (by omega) (by omega)
  refine ⟨⟨?_, ?_⟩, ⟨?_, ?_⟩, ?_, ?_, ⟨pcL, ?_, ?_⟩, ⟨pcR, ?_, ?_⟩⟩ <;>
    simp only [applyCorrection, hcfg, hpcL, hpcR, exitCorrectionMode_left,
      exitCorrectionMode_right, MoveCounterState.setMoves, PMState.setMethod] <;>
    omega

/-- Witness for C8: a two-period configuration; the correction asks for
period 7 and -3 moves on the left and period -2 and 5 moves on the right;
the applied state has both periods clamped into `[0, 1]`, the left move
counter clamped to 0, and both methods rebuilt from the clamped periods. -/
theorem C8_correction_clamps_witness :
    ({ gs := { optionConfig := some { periods :=
        [{ method := .TIME, timeMs := 300000 },
          { method := .FISCHER, timeMs := 60000, delayMs := 3000 }] } } } :
        AppState).gs.optionConfig =
      some { periods := [{ method := .TIME, timeMs := 300000 },
        { method := .FISCHER, timeMs := 60000, delayMs := 3000 }] } ∧
    1 ≤ ({ periods := [{ method := .TIME, timeMs := 300000 },
      { method := .FISCHER, timeMs := 60000, delayMs := 3000 }] } :
        Config).periods.length ∧
    ((0 ≤ (applyCorrection
        { gs := { optionConfig := some { periods :=
          [{ method := .TIME, timeMs := 300000 },
            { method := .FISCHER, timeMs := 60000, delayMs := 3000 }] } } }
        { leftTimeMs := 1000, rightTimeMs := 2000, leftMoves := -3, rightMoves := 5,
          leftPeriod := 7, rightPeriod := -2 }).gs.left.currentPeriod ∧
      (applyCorrection
        { gs := { optionConfig := some { periods :=
          [{ method := .TIME, timeMs := 300000 },
            { method := .FISCHER, timeMs := 60000, delayMs := 3000 }] } } }
        { leftTimeMs := 1000, rightTimeMs := 2000, leftMoves := -3, rightMoves := 5,
          leftPeriod := 7, rightPeriod := -2 }).gs.left.currentPeriod ≤
        (({ periods := [{ method := .TIME, timeMs := 300000 },
          { method := .FISCHER, timeMs := 60000, delayMs := 3000 }] } :
            Config).periods.length : Int) - 1) ∧
      (0 ≤ (applyCorrection
        { gs := { optionConfig := some { periods :=
          [{ method := .TIME, timeMs := 300000 },
            { method := .FISCHER, timeMs := 60000, delayMs := 3000 }] } } }
        { leftTimeMs := 1000, rightTimeMs := 2000, leftMoves := -3, rightMoves := 5,
          leftPeriod := 7, rightPeriod := -2 }).gs.right.currentPeriod ∧
      (applyCorrection
        { gs := { optionConfig := some { periods :=
          [{ method := .TIME, timeMs := 300000 },
            { method := .FISCHER, timeMs := 60000, delayMs := 3000 }] } } }
        { leftTimeMs := 1000, rightTimeMs := 2000, leftMoves := -3, rightMoves := 5,
          leftPeriod := 7, rightPeriod := -2 }).gs.right.currentPeriod ≤
        (({ periods := [{ method := .TIME, timeMs := 300000 },
          { method := .FISCHER, timeMs := 60000, delayMs := 3000 }] } :
            Config).periods.length : Int) - 1) ∧
      (applyCorrection
        { gs := { optionConfig := some { periods :=
          [{ method := .TIME, timeMs := 300000 },
            { method := .FISCHER, timeMs := 60000, delayMs := 3000 }] } } }
        { leftTimeMs := 1000, rightTimeMs := 2000, leftMoves := -3, rightMoves := 5,
          leftPeriod := 7, rightPeriod := -2 }).mc.leftMoves = max 0 (-3) ∧
      (applyCorrection
        { gs := { optionConfig := some { periods :=
          [{ method := .TIME, timeMs := 300000 },
            { method := .FISCHER, timeMs := 60000, delayMs := 3000 }] } } }
        { leftTimeMs := 1000, rightTimeMs := 2000, leftMoves := -3, rightMoves := 5,
          leftPeriod := 7, rightPeriod := -2 }).mc.rightMoves = max 0 5 ∧
      (∃ pc, getPeriodAt ({ periods := [{ method := .TIME, timeMs := 300000 },
          { method := .FISCHER, timeMs := 60000, delayMs := 3000 }] } :
            Config).periods
          (applyCorrection
            { gs := { optionConfig := some { periods :=
              [{ method := .TIME, timeMs := 300000 },
                { method := .FISCHER, timeMs := 60000, delayMs := 3000 }] } } }
            { leftTimeMs := 1000, rightTimeMs := 2000, leftMoves := -3, rightMoves := 5,
              leftPeriod := 7, rightPeriod := -2 }).gs.left.currentPeriod = some pc ∧
        (applyCorrection
          { gs := { optionConfig := some { periods :=
            [{ method := .TIME, timeMs := 300000 },
              { method := .FISCHER, timeMs := 60000, delayMs := 3000 }] } } }
          { leftTimeMs := 1000, rightTimeMs := 2000, leftMoves := -3, rightMoves := 5,
            leftPeriod := 7, rightPeriod := -2 }).pm.leftMethod = createMethod pc) ∧
      (∃ pc, getPeriodAt ({ periods := [{ method := .TIME, timeMs := 300000 },
          { method := .FISCHER, timeMs := 60000, delayMs := 3000 }] } :
            Config).periods
          (applyCorrection
            { gs := { optionConfig := some { periods :=
              [{ method := .TIME, timeMs := 300000 },
                { method := .FISCHER, timeMs := 60000, delayMs := 3000 }] } } }
            { leftTimeMs := 1000, rightTimeMs := 2000, leftMoves := -3, rightMoves := 5,
              leftPeriod := 7, rightPeriod := -2 }).gs.right.currentPeriod = some pc ∧
        (applyCorrection
          { gs := { optionConfig := some { periods :=
            [{ method := .TIME, timeMs := 300000 },
              { method := .FISCHER, timeMs := 60000, delayMs := 3000 }] } } }
          { leftTimeMs := 1000, rightTimeMs := 2000, leftMoves := -3, rightMoves := 5,
            leftPeriod := 7, rightPeriod := -2 }).pm.rightMethod = createMethod pc)) :=
  ⟨rfl, by decide,
    C8_correction_clamps
      { gs := { optionConfig := some { periods :=
        [{ method := .TIME, timeMs := 300000 },
          { method := .FISCHER, timeMs := 60000, delayMs := 3000 }] } } }
      { leftTimeMs := 1000, rightTimeMs := 2000, leftMoves := -3, rightMoves := 5,
        leftPeriod := 7, rightPeriod := -2 }
      { periods := [{ method := .TIME, timeMs := 300000 },
        { method := .FISCHER, timeMs := 60000, delayMs := 3000 }] }
      rfl (by decide)⟩

end TempoMate
